import Mathlib

/-!
Shallow embedding of the song-catalog HTTP API (server.py, errors.py):
the parameter validation, query composition and rating aggregation logic
of each handler, modelled as pure Lean functions over an explicit
document store (a list of song documents in insertion order).
-/

namespace SongApi

/-- Decidable equality of handler results. -/
instance {ε α : Type} [DecidableEq ε] [DecidableEq α] :
    DecidableEq (Except ε α) := fun x y =>
  match x, y with
  | .ok a, .ok b =>
    if h : a = b then .isTrue (by rw [h]) else .isFalse (by simp [h])
  | .error a, .error b =>
    if h : a = b then .isTrue (by rw [h]) else .isFalse (by simp [h])
  | .ok _, .error _ => .isFalse (by simp)
  | .error _, .ok _ => .isFalse (by simp)

/-- A BSON object identifier, modelled by its canonical 24-character
lowercase hexadecimal string form (`str(ObjectId(...))`). -/
structure ObjectId where
  hex : String
deriving DecidableEq, Repr

/-- A character is a hexadecimal digit (`0-9`, `a-f`, `A-F`). -/
def isHexChar (c : Char) : Bool :=
  c.isDigit || ('a' ≤ c && c ≤ 'f') || ('A' ≤ c && c ≤ 'F')

/-- Lowercase a string (`str.lower` on ASCII input). -/
def lowerStr (s : String) : String :=
  ⟨s.data.map Char.toLower⟩

/-- `bson.objectid.ObjectId(s)` on a string: succeeds exactly when `s` is a
24-character hexadecimal string, normalising to lowercase; otherwise raises
`InvalidId` (modelled as `none`). -/
def parseObjectId (s : String) : Option ObjectId :=
  if s.data.length = 24 && s.data.all isHexChar then some ⟨lowerStr s⟩ else none

/-- A song document.  The `rating` field is the per-value rating histogram:
an association list from rating value to its recorded count (the document
sub-object `rating`, keys "1".."5" stored here as the numeric value). -/
structure Song where
  oid : ObjectId
  artist : String
  title : String
  level : Int
  difficulty : Rat
  rating : List (Nat × Nat)
deriving DecidableEq, Repr

/-- The document store: the `songs` collection in natural (insertion) order. -/
abbrev Store := List Song

/-- errors.py `ApiError`: a message and an HTTP status code. -/
structure ApiError where
  message : String
  status_code : Nat
deriving DecidableEq, Repr

/-- errors.py `InvalidArgumentError(value, arg)`: status 500 and message
`"<value>" is not a valid argument for parameter "<arg>"`. -/
def InvalidArgumentError (value : String) (arg : String) : ApiError :=
  { message := "\"" ++ value ++ "\" is not a valid argument for parameter \"" ++ arg ++ "\""
    status_code := 500 }

/-- errors.py `MissingRequireArgumentError(arg, url)`: status 500 and message
`argument "<arg>" is required for endpoint "<url>"`. -/
def MissingRequireArgumentError (arg : String) (url : String) : ApiError :=
  { message := "argument \"" ++ arg ++ "\" is required for endpoint \"" ++ url ++ "\""
    status_code := 500 }

/-- errors.py `ObjectNotFoundError(oid)`: status 404 and message
`song_id "<oid>" not found`. -/
def ObjectNotFoundError (oid : String) : ApiError :=
  { message := "song_id \"" ++ oid ++ "\" not found"
    status_code := 404 }

/-- Strip leading and trailing whitespace (`str.strip`). -/
def pyStrip (s : String) : String :=
  ⟨((s.data.dropWhile Char.isWhitespace).reverse.dropWhile
      Char.isWhitespace).reverse⟩

/-- Read a non-empty run of decimal digits as a natural number. -/
def digitsToNat (cs : List Char) : Option Nat :=
  if cs ≠ [] && cs.all Char.isDigit then
    some (cs.foldl (fun n c => 10 * n + (c.toNat - 48)) 0)
  else none

/-- Python `int(s)` on a string: strip surrounding whitespace, an optional
sign, then a non-empty run of decimal digits; anything else raises
`ValueError` (modelled as `none`). -/
def parsePyInt (s : String) : Option Int :=
  match (pyStrip s).data with
  | '-' :: c :: cs => (digitsToNat (c :: cs)).map (fun n => -(n : Int))
  | '+' :: c :: cs => (digitsToNat (c :: cs)).map (fun n => (n : Int))
  | cs => (digitsToNat cs).map (fun n => (n : Int))

/-- Python string interpolation `"{}".format(v)` of an optional form value:
`None` prints as `None`, a string prints as itself. -/
def pyShow (v : Option String) : String :=
  match v with
  | none => "None"
  | some s => s

/-- Python truthiness of an optional request parameter: `None` and the empty
string are falsy. -/
def pyTruthy (v : Option String) : Bool :=
  match v with
  | none => false
  | some s => s ≠ ""

/-- The HTTP status of a handler result: success responses are emitted with
status 200, error responses carry the error's `status_code`. -/
def statusOf {α : Type} (r : Except ApiError α) : Nat :=
  match r with
  | .ok _ => 200
  | .error e => e.status_code

/-- MongoDB `find(skip=skip, limit=limit)` over the collection's natural
order: drop `skip` documents, then return at most `limit` documents — except
that a limit of 0 is, per the store's contract, equivalent to setting no
limit at all. -/
def mongoFind (docs : Store) (skip limit : Int) : List Song :=
  let dropped := docs.drop skip.toNat
  if limit = 0 then dropped else dropped.take limit.toNat

/-- server.py `get_songs` argument handling for one entry of the `args`
dict: the raw query value defaulted through `or dflt`, then validated by
the loop (`if val: int(val); reject negatives`).  An absent or empty
parameter becomes the integer default, which passes validation. -/
def validateArg (raw : Option String) (dflt : Int) (name : String) :
    Except ApiError Int :=
  match raw with
  | none => .ok dflt
  | some s =>
    if s = "" then .ok dflt
    else
      match parsePyInt s with
      | none => .error (InvalidArgumentError s name)
      | some i => if i < 0 then .error (InvalidArgumentError s name) else .ok i

/-- server.py `get_songs`: GET /songs with query parameters `p` and `n`.
Validates `p` (default 0) then `n` (default 10) in the dict's insertion
order, computes `limit = n`, `skip = p * limit`, and fetches with
skip/limit from the store. -/
def get_songs (store : Store) (p n : Option String) :
    Except ApiError (List Song) := do
  let pv ← validateArg p 0 "p"
  let nv ← validateArg n 10 "n"
  let limit := nv
  let skip := pv * limit
  return mongoFind store skip limit

/-- The distinct `level` values present in the store — the `_id`s produced
by the aggregation stage grouping on `$level` (one group per distinct
level; the store leaves group order unspecified, modelled here via
`dedup`). -/
def distinctLevels (docs : Store) : List Int :=
  (docs.map Song.level).dedup

/-- The `$avg` accumulator of `difficulty` over the documents of one level
group: the arithmetic mean of their `difficulty` values. -/
def avgDifficultyAt (docs : Store) (l : Int) : Rat :=
  let ds := (docs.filter (fun s => s.level = l)).map Song.difficulty
  ds.sum / (ds.length : Rat)

/-- The `$group` stage of server.py `get_avg_difficulty`: one result
document `(_id = level, averageDifficulty)` per distinct level. -/
def groupByLevel (docs : Store) : List (Int × Rat) :=
  (distinctLevels docs).map (fun l => (l, avgDifficultyAt docs l))

/-- server.py `get_avg_difficulty`: GET /songs/avg/difficulty with optional
query parameter `level`.  Groups all documents by `level` with the mean
`difficulty`; a truthy `level` must parse as an integer (else
`InvalidArgumentError`) and appends a `$match` stage keeping only the
group whose `_id` equals it. -/
def get_avg_difficulty (store : Store) (level : Option String) :
    Except ApiError (List (Int × Rat)) :=
  let groups := groupByLevel store
  match level with
  | none => .ok groups
  | some s =>
    if s = "" then .ok groups
    else
      match parsePyInt s with
      | none => .error (InvalidArgumentError s "level")
      | some l => .ok (groups.filter (fun g => g.1 = l))

/-- Split a character list on spaces into non-empty tokens (`acc` holds the
current token, reversed). -/
def tokensAux : List Char → List Char → List String
  | [], acc => if acc = [] then [] else [⟨acc.reverse⟩]
  | c :: cs, acc =>
    if c = ' ' then
      if acc = [] then tokensAux cs [] else ⟨acc.reverse⟩ :: tokensAux cs []
    else tokensAux cs (c :: acc)

/-- A case-insensitive token of a text field, as the store's text index
tokenises it: split on spaces, lowercased. -/
def textTokens (s : String) : List String :=
  tokensAux (lowerStr s).data []

/-- The store's `$text`/`$search` query over the indexed `artist` and
`title` fields: a document matches when some search term matches some
token of either field (terms are OR'ed, case-insensitively). -/
def textSearch (docs : Store) (message : String) : List Song :=
  docs.filter (fun s =>
    (textTokens message).any (fun t =>
      (textTokens s.artist).contains t || (textTokens s.title).contains t))

/-- server.py `songs_search`: GET /songs/search with required query
parameter `message`.  A falsy `message` (absent or empty) fails with
`MissingRequireArgumentError('message', request.path)` before any search
is performed; otherwise the full-text search result is returned. -/
def songs_search (store : Store) (message : Option String) :
    Except ApiError (List Song) :=
  if pyTruthy message then
    .ok (textSearch store (pyShow message))
  else
    .error (MissingRequireArgumentError "message" "/songs/search")

/-- MongoDB `$inc` of 1 on the histogram key `rating.<r>`: increment the
count at key `r`, creating it at 1 when absent. -/
def incRating (m : List (Nat × Nat)) (r : Nat) : List (Nat × Nat) :=
  match m with
  | [] => [(r, 1)]
  | (k, v) :: rest =>
    if k = r then (k, v + 1) :: rest else (k, v) :: incRating rest r

/-- MongoDB `update_one({_id: oid}, {$inc: {rating.<r>: 1}})`: update the
first document whose `_id` equals `oid`, returning the new collection and
the `matched_count` (1 when a document matched, 0 otherwise). -/
def updateOneIncRating (docs : Store) (oid : ObjectId) (r : Nat) :
    Store × Nat :=
  match docs with
  | [] => ([], 0)
  | s :: rest =>
    if s.oid = oid then
      ({ s with rating := incRating s.rating r } :: rest, 1)
    else
      let (rest', m) := updateOneIncRating rest oid r
      (s :: rest', m)

/-- The response of POST /songs/rating: the 200 body `{"status": "OK"}` or
an `ApiError` envelope. -/
inductive RatingOutcome where
  | ok : RatingOutcome
  | err : ApiError → RatingOutcome
deriving DecidableEq, Repr

/-- The literal rating strings accepted by server.py `songs_rating`. -/
def validRatings : List String := ["1", "2", "3", "4", "5"]

/-- The numeric value of an accepted rating string. -/
def ratingValue (r : String) : Nat := (digitsToNat r.data).getD 0

/-- server.py `songs_rating`: POST /songs/rating with form parameters
`song_id` and `rating`.  Returns the response together with the store
after the request (the update is only issued once every validation has
passed).  Validation order: falsy `song_id` →
`MissingRequireArgumentError`; malformed `song_id` →
`InvalidArgumentError`; falsy or out-of-set `rating` →
`InvalidArgumentError`; then the `$inc` update runs and a
`matched_count` of 0 yields `ObjectNotFoundError(song_id)` (the store
is unchanged in that case since nothing matched). -/
def songs_rating (store : Store) (song_id rating : Option String) :
    RatingOutcome × Store :=
  if pyTruthy song_id then
    let sid := pyShow song_id
    match parseObjectId sid with
    | none => (.err (InvalidArgumentError sid "song_id"), store)
    | some oid =>
      if pyTruthy rating && validRatings.contains (pyShow rating) then
        let (docs', matched) := updateOneIncRating store oid (ratingValue (pyShow rating))
        if matched = 0 then
          (.err (ObjectNotFoundError oid.hex), docs')
        else
          (.ok, docs')
      else
        (.err (InvalidArgumentError (pyShow rating) "rating"), store)
  else
    (.err (MissingRequireArgumentError "song_id" "/songs/rating"), store)

/-- An unhandled Python exception escaping the `songs_ratings` handler
(Flask turns these into a generic 500 Internal Server Error, not the
JSON error envelope). -/
inductive PyCrash where
  | typeErrorNoneSubscript
  | valueErrorEmptyMin
  | zeroDivisionError
deriving DecidableEq, Repr

/-- The response of GET /songs/avg/rating/<song_id>: the stats document
`(_id, min_rating, max_rating, avg_rating)`, an `ApiError` envelope, or
an unhandled crash. -/
inductive StatsOutcome where
  | ok : ObjectId → Nat → Nat → Rat → StatsOutcome
  | err : ApiError → StatsOutcome
  | crash : PyCrash → StatsOutcome
deriving DecidableEq, Repr

/-- server.py `songs_ratings` lines 199-213, the rating aggregation on the
value of `find_one`: subscripting `['rating']` (a `TypeError` when no
document was found and `song` is `None`), `min`/`max` over the histogram
keys (a `ValueError` on an empty histogram, raised at `min` before the
division is ever reached), the accumulation loop, and the final division
(a `ZeroDivisionError` when the accumulated count is zero). -/
def aggregateRatings (song : Option Song) : StatsOutcome :=
  match song with
  | none => .crash .typeErrorNoneSubscript
  | some s =>
    match s.rating.map Prod.fst with
    | [] => .crash .valueErrorEmptyMin
    | k :: ks =>
      let min_rating := ks.foldl min k
      let max_rating := ks.foldl max k
      let p := s.rating.foldl
        (fun (ac : Rat × Nat) kv => (ac.1 + (kv.1 : Rat) * (kv.2 : Rat), ac.2 + kv.2))
        (0, 0)
      if p.2 = 0 then .crash .zeroDivisionError
      else .ok s.oid min_rating max_rating (p.1 / (p.2 : Rat))

/-- server.py `songs_ratings`: GET /songs/avg/rating/<song_id>.  A
malformed path `song_id` yields `InvalidArgumentError`; otherwise the
handler runs `find_one` on the id and aggregates the result's rating
histogram — with no not-found check in between. -/
def songs_ratings (store : Store) (song_id : String) : StatsOutcome :=
  match parseObjectId song_id with
  | none => .err (InvalidArgumentError song_id "song_id")
  | some oid => aggregateRatings (store.find? (fun s => s.oid = oid))

/-- The HTTP status of a POST /songs/rating response. -/
def statusOfRating (r : RatingOutcome) : Nat :=
  match r with
  | .ok => 200
  | .err e => e.status_code

/-- The recorded count of a rating value in a histogram (absent keys
implicitly zero). -/
def ratingCount (m : List (Nat × Nat)) (k : Nat) : Nat :=
  match m with
  | [] => 0
  | (k', v) :: rest => if k' = k then v else ratingCount rest k

/-- Spec-side reading (§4.3): the rating values of the histogram whose
recorded count is non-zero. -/
def nonzeroValues (m : List (Nat × Nat)) : List Nat :=
  (m.filter (fun kv => kv.2 ≠ 0)).map Prod.fst

/-- Spec-side reading (§4.3): the smallest rating value with a non-zero
recorded count (none when there is no such value). -/
def specMinRating (m : List (Nat × Nat)) : Option Nat :=
  match nonzeroValues m with
  | [] => none
  | k :: ks => some (ks.foldl min k)

/-- Spec-side reading (§4.3): the largest rating value with a non-zero
recorded count (none when there is no such value). -/
def specMaxRating (m : List (Nat × Nat)) : Option Nat :=
  match nonzeroValues m with
  | [] => none
  | k :: ks => some (ks.foldl max k)

/-- Spec-side reading (§4.3): the count-weighted mean
`sum(value * count) / sum(count)` over the histogram. -/
def specAvgRating (m : List (Nat × Nat)) : Rat :=
  (m.map (fun kv => (kv.1 : Rat) * (kv.2 : Rat))).sum /
    ((m.map Prod.snd).sum : Rat)

/-- A fixture song with no recorded rating. -/
def unratedSong : Song :=
  { oid := ⟨"0123456789abcdef01234567"⟩
    artist := "Mr Fastfinger"
    title := "Awaki-Waki"
    level := 9
    difficulty := 15
    rating := [] }

/-- A fixture song rated once at value 4. -/
def ratedSong : Song :=
  { oid := ⟨"aaaaaaaaaaaaaaaaaaaaaaaa"⟩
    artist := "The Yousicians"
    title := "Lycanthropic Metamorphosis"
    level := 13
    difficulty := 14
    rating := [(4, 1)] }

/-! ## Helper lemmas -/

theorem validateArg_error_iff (raw : Option String) (dflt : Int) (name : String)
    (e : ApiError) :
    validateArg raw dflt name = .error e ↔
      ∃ s, raw = some s ∧ s ≠ "" ∧
        (parsePyInt s = none ∨ ∃ i, parsePyInt s = some i ∧ i < 0) ∧
        e = InvalidArgumentError s name := by
  cases raw with
  | none => simp [validateArg]
  | some s =>
    by_cases hs : s = ""
    · simp [validateArg, hs]
    · cases hpi : parsePyInt s with
      | none => simp [validateArg, hs, hpi, eq_comm]
      | some i =>
        by_cases hi : i < 0 <;> simp [validateArg, hs, hpi, hi, eq_comm]

theorem validateArg_offending (s : String) (dflt : Int) (name : String)
    (hs : s ≠ "")
    (hbad : parsePyInt s = none ∨ ∃ i, parsePyInt s = some i ∧ i < 0) :
    validateArg (some s) dflt name = .error (InvalidArgumentError s name) := by
  rcases hbad with hh | ⟨i, hi, hneg⟩
  · simp [validateArg, hs, hh]
  · simp [validateArg, hs, hi, hneg]

theorem get_songs_eq_ok (store : Store) (p n : Option String) (pv nv : Int)
    (hp : validateArg p 0 "p" = .ok pv) (hn : validateArg n 10 "n" = .ok nv) :
    get_songs store p n = .ok (mongoFind store (pv * nv) nv) := by
  simp [get_songs, hp, hn, Bind.bind, Except.bind, Pure.pure, Except.pure]

theorem get_songs_eq_error_p (store : Store) (p n : Option String) (e : ApiError)
    (hp : validateArg p 0 "p" = .error e) :
    get_songs store p n = .error e := by
  simp [get_songs, hp, Bind.bind, Except.bind, Functor.map, Except.map]

theorem get_songs_eq_error_n (store : Store) (p n : Option String) (pv : Int)
    (e : ApiError)
    (hp : validateArg p 0 "p" = .ok pv) (hn : validateArg n 10 "n" = .error e) :
    get_songs store p n = .error e := by
  simp [get_songs, hp, hn, Bind.bind, Except.bind, Functor.map, Except.map]

theorem length_mongoFind (docs : Store) (skip limit : Int) (h : limit ≠ 0) :
    (mongoFind docs skip limit).length =
      min limit.toNat (docs.length - skip.toNat) := by
  simp [mongoFind, h]

theorem nodup_filter_eq_mem {L : List Int} (hL : L.Nodup) (l : Int) :
    L.filter (fun a => a = l) = if l ∈ L then [l] else [] := by
  induction L with
  | nil => simp
  | cons a L ih =>
    rw [List.nodup_cons] at hL
    obtain ⟨ha, hnd⟩ := hL
    by_cases hal : a = l
    · subst hal
      have hfe : L.filter (fun x => x = a) = [] := by
        rw [List.filter_eq_nil_iff]
        intro b hb
        simp only [decide_eq_true_eq]
        intro hba
        exact ha (hba ▸ hb)
      simp [List.filter_cons, hfe]
    · simp [List.filter_cons, hal, ih hnd, List.mem_cons, Ne.symm hal]

theorem groupByLevel_filter (store : Store) (l : Int) :
    (groupByLevel store).filter (fun g => g.1 = l) =
      if l ∈ (store.map Song.level).dedup
      then [(l, avgDifficultyAt store l)] else [] := by
  rw [groupByLevel, distinctLevels, List.filter_map]
  have hcomp : ((fun g : Int × Rat => decide (g.1 = l)) ∘
      fun lv => (lv, avgDifficultyAt store lv)) = fun lv => decide (lv = l) := by
    funext lv
    simp
  rw [hcomp, nodup_filter_eq_mem (List.nodup_dedup _) l]
  by_cases h : l ∈ (store.map Song.level).dedup <;> simp [h]

/-! ## C3: pagination of GET /songs -/

/-- C3 (counterexample): with one document in the store and valid
parameters `p` absent, `n = "0"`, GET /songs returns that one document —
the store treats a limit of 0 as no limit — whereas the claim requires
`min(0, 1 - 0*0) = 0` items. -/
theorem get_songs_limit_zero_counterexample :
    get_songs [unratedSong] none (some "0") = .ok [unratedSong] ∧
    ([unratedSong] : Store).length = 1 ∧ min 0 (1 - 0 * 0) = 0 := by
  exact ⟨by decide, by decide, by decide⟩

/-- C3 (amended): for every pair of valid parameters `p`, `n`, GET /songs
never returns an error; when the parsed `n` is non-zero it returns exactly
`min(n, total - p*n)` items, namely the contiguous slice of the store's
natural insertion order starting after `skip = p * n`; when `n = 0` the
store's limit-0-means-no-limit contract makes it return the entire
collection instead of 0 items. -/
theorem get_songs_pagination_count (store : Store) (p n : Option String)
    (pv nv : Int)
    (hp : validateArg p 0 "p" = .ok pv) (hn : validateArg n 10 "n" = .ok nv) :
    ∃ l, get_songs store p n = .ok l ∧
      (nv ≠ 0 → l = (store.drop (pv * nv).toNat).take nv.toNat ∧
        l.length = min nv.toNat (store.length - (pv * nv).toNat)) ∧
      (nv = 0 → l = store) := by
  refine ⟨mongoFind store (pv * nv) nv,
    get_songs_eq_ok store p n pv nv hp hn, ?_, ?_⟩
  · intro h
    constructor
    · simp [mongoFind, h]
    · exact length_mongoFind store (pv * nv) nv h
  · intro h
    subst h
    simp [mongoFind]

/-- C3 (witness): the amended pagination theorem applied to a two-song
store with `p = "1"`, `n = "2"`. -/
theorem get_songs_pagination_count_witness :
    validateArg (some "1") 0 "p" = .ok 1 ∧
    validateArg (some "2") 10 "n" = .ok 2 ∧
    (∃ l, get_songs [unratedSong, ratedSong] (some "1") (some "2") = .ok l ∧
      ((2 : Int) ≠ 0 →
        l = (([unratedSong, ratedSong] : Store).drop
              ((1 : Int) * 2).toNat).take (2 : Int).toNat ∧
        l.length = min (2 : Int).toNat
          (([unratedSong, ratedSong] : Store).length - ((1 : Int) * 2).toNat)) ∧
      ((2 : Int) = 0 → l = [unratedSong, ratedSong])) :=
  ⟨by decide, by decide,
   get_songs_pagination_count [unratedSong, ratedSong] (some "1") (some "2") 1 2
     (by decide) (by decide)⟩

/-! ## C5: invalid `p`/`n` on GET /songs -/

/-- C5: whenever the `p` or `n` query parameter of GET /songs is a
non-empty string that fails integer parsing or parses to a negative
integer, the response is status 500 with body message
`"<value>" is not a valid argument for parameter "<name>"` for the
offending parameter (the `p` error takes precedence when both offend,
matching the validation loop's insertion order). -/
theorem get_songs_invalid_p_or_n (store : Store) (p n : Option String)
    (h : (∃ s, p = some s ∧ s ≠ "" ∧
            (parsePyInt s = none ∨ ∃ i, parsePyInt s = some i ∧ i < 0)) ∨
         (∃ s, n = some s ∧ s ≠ "" ∧
            (parsePyInt s = none ∨ ∃ i, parsePyInt s = some i ∧ i < 0))) :
    ∃ v name, ((p = some v ∧ name = "p") ∨ (n = some v ∧ name = "n")) ∧
      v ≠ "" ∧ (parsePyInt v = none ∨ ∃ i, parsePyInt v = some i ∧ i < 0) ∧
      get_songs store p n = .error (InvalidArgumentError v name) ∧
      statusOf (get_songs store p n) = 500 ∧
      (InvalidArgumentError v name).message =
        "\"" ++ v ++ "\" is not a valid argument for parameter \"" ++
          name ++ "\"" := by
  cases hvp : validateArg p 0 "p" with
  | error e =>
    obtain ⟨s, hps, hs, hbad, he⟩ := (validateArg_error_iff p 0 "p" e).mp hvp
    subst he
    refine ⟨s, "p", Or.inl ⟨hps, rfl⟩, hs, hbad, ?_, ?_, rfl⟩
    · exact get_songs_eq_error_p store p n _ hvp
    · rw [get_songs_eq_error_p store p n _ hvp]
      rfl
  | ok pv =>
    have hn2 : ∃ s, n = some s ∧ s ≠ "" ∧
        (parsePyInt s = none ∨ ∃ i, parsePyInt s = some i ∧ i < 0) := by
      rcases h with ⟨s, hps, hs, hbad⟩ | hn2
      · rw [hps, validateArg_offending s 0 "p" hs hbad] at hvp
        exact absurd hvp (by simp)
      · exact hn2
    obtain ⟨s, hns, hs, hbad⟩ := hn2
    have hverr : validateArg n 10 "n" = .error (InvalidArgumentError s "n") := by
      rw [hns]
      exact validateArg_offending s 10 "n" hs hbad
    refine ⟨s, "n", Or.inr ⟨hns, rfl⟩, hs, hbad, ?_, ?_, rfl⟩
    · exact get_songs_eq_error_n store p n pv _ hvp hverr
    · rw [get_songs_eq_error_n store p n pv _ hvp hverr]
      rfl

/-- C5 (witness): the invalid-parameter theorem applied to `p = "fake"`
on an empty store. -/
theorem get_songs_invalid_p_or_n_witness :
    ((∃ s, (some "fake" : Option String) = some s ∧ s ≠ "" ∧
        (parsePyInt s = none ∨ ∃ i, parsePyInt s = some i ∧ i < 0)) ∨
     (∃ s, (none : Option String) = some s ∧ s ≠ "" ∧
        (parsePyInt s = none ∨ ∃ i, parsePyInt s = some i ∧ i < 0))) ∧
    (∃ v name, (((some "fake" : Option String) = some v ∧ name = "p") ∨
        ((none : Option String) = some v ∧ name = "n")) ∧
      v ≠ "" ∧ (parsePyInt v = none ∨ ∃ i, parsePyInt v = some i ∧ i < 0) ∧
      get_songs [] (some "fake") none = .error (InvalidArgumentError v name) ∧
      statusOf (get_songs [] (some "fake") none) = 500 ∧
      (InvalidArgumentError v name).message =
        "\"" ++ v ++ "\" is not a valid argument for parameter \"" ++
          name ++ "\"") :=
  ⟨Or.inl ⟨"fake", rfl, by decide, Or.inl (by decide)⟩,
   get_songs_invalid_p_or_n [] (some "fake") none
     (Or.inl ⟨"fake", rfl, by decide, Or.inl (by decide)⟩)⟩

/-! ## C9: empty-string parameters fall back to the defaults -/

/-- C9: an empty-string `p` or `n` on GET /songs is treated exactly as an
absent parameter — the defaults `p = 0`, `n = 10` apply and the request
succeeds with status 200 (returning the first ten documents); likewise an
empty-string `level` on GET /songs/avg/difficulty applies no level filter
and succeeds. -/
theorem empty_string_params_use_defaults (store : Store) :
    get_songs store (some "") (some "") = get_songs store none none ∧
    get_songs store (some "") (some "") = .ok (store.take 10) ∧
    statusOf (get_songs store (some "") (some "")) = 200 ∧
    get_avg_difficulty store (some "") = get_avg_difficulty store none ∧
    get_avg_difficulty store (some "") = .ok (groupByLevel store) := by
  have h1 : get_songs store (some "") (some "") = .ok (mongoFind store 0 10) :=
    get_songs_eq_ok store (some "") (some "") 0 10 (by decide) (by decide)
  have h2 : get_songs store none none = .ok (mongoFind store 0 10) :=
    get_songs_eq_ok store none none 0 10 rfl rfl
  refine ⟨h1.trans h2.symm, ?_, ?_, rfl, rfl⟩
  · rw [h1]
    simp [mongoFind]
  · rw [h1]
    rfl

/-! ## C6: GET /songs/avg/difficulty grouping -/

/-- C6: GET /songs/avg/difficulty groups all documents by `level` (the
number of result groups equals the number of distinct level values
present, and a level value appears among the groups exactly when some
document has it); with a valid integer `level` parameter the result is
restricted to the single group for that level — exactly one group (with
that level's arithmetic mean of `difficulty`) when matching documents
exist, and the empty result set with status 200 when none do. -/
theorem get_avg_difficulty_grouping (store : Store) (level : String) (l : Int)
    (hne : level ≠ "") (hli : parsePyInt level = some l) :
    (∃ gs, get_avg_difficulty store none = .ok gs ∧
      statusOf (get_avg_difficulty store none) = 200 ∧
      gs.length = (store.map Song.level).toFinset.card ∧
      (∀ lv : Int, (∃ s ∈ store, s.level = lv) ↔ ∃ g ∈ gs, g.1 = lv)) ∧
    (∃ gs, get_avg_difficulty store (some level) = .ok gs ∧
      statusOf (get_avg_difficulty store (some level)) = 200 ∧
      ((∃ s ∈ store, s.level = l) → gs = [(l, avgDifficultyAt store l)]) ∧
      (¬ (∃ s ∈ store, s.level = l) → gs = [])) := by
  constructor
  · refine ⟨groupByLevel store, rfl, rfl, ?_, ?_⟩
    · rw [List.card_toFinset]
      simp [groupByLevel, distinctLevels]
    · intro lv
      simp [groupByLevel, distinctLevels, List.mem_dedup, List.mem_map]
  · have hfilter : get_avg_difficulty store (some level) =
        .ok ((groupByLevel store).filter (fun g => g.1 = l)) := by
      simp [get_avg_difficulty, hne, hli]
    refine ⟨(groupByLevel store).filter (fun g => g.1 = l), hfilter, ?_, ?_, ?_⟩
    · rw [hfilter]
      rfl
    · intro hex
      have hmem : l ∈ (store.map Song.level).dedup := by
        rw [List.mem_dedup, List.mem_map]
        obtain ⟨s, hs, hl⟩ := hex
        exact ⟨s, hs, hl⟩
      rw [groupByLevel_filter]
      simp [hmem]
    · intro hex
      have hmem : l ∉ (store.map Song.level).dedup := by
        rw [List.mem_dedup, List.mem_map]
        rintro ⟨s, hs, hl⟩
        exact hex ⟨s, hs, hl⟩
      rw [groupByLevel_filter]
      simp [hmem]

/-- C6 (witness): the grouping theorem applied to a two-song store with
the level filter `"9"`. -/
theorem get_avg_difficulty_grouping_witness :
    ("9" : String) ≠ "" ∧ parsePyInt "9" = some 9 ∧
    ((∃ gs, get_avg_difficulty [unratedSong, ratedSong] none = .ok gs ∧
      statusOf (get_avg_difficulty [unratedSong, ratedSong] none) = 200 ∧
      gs.length =
        (([unratedSong, ratedSong] : Store).map Song.level).toFinset.card ∧
      (∀ lv : Int, (∃ s ∈ ([unratedSong, ratedSong] : Store), s.level = lv) ↔
        ∃ g ∈ gs, g.1 = lv)) ∧
    (∃ gs, get_avg_difficulty [unratedSong, ratedSong] (some "9") = .ok gs ∧
      statusOf (get_avg_difficulty [unratedSong, ratedSong] (some "9")) = 200 ∧
      ((∃ s ∈ ([unratedSong, ratedSong] : Store), s.level = 9) →
        gs = [(9, avgDifficultyAt [unratedSong, ratedSong] 9)]) ∧
      (¬ (∃ s ∈ ([unratedSong, ratedSong] : Store), s.level = 9) →
        gs = []))) :=
  ⟨by decide, by decide,
   get_avg_difficulty_grouping [unratedSong, ratedSong] "9" 9
     (by decide) (by decide)⟩

/-! ## C8: GET /songs/search requires a message -/

/-- C8: a GET /songs/search request whose `message` query parameter is
missing or the empty string fails with
`MissingRequireArgumentError("message", "/songs/search")` — status 500 and
body message `argument "message" is required for endpoint "/songs/search"`
— and the error is returned before any search is performed. -/
theorem songs_search_missing_message (store : Store) (message : Option String)
    (h : message = none ∨ message = some "") :
    songs_search store message =
      .error (MissingRequireArgumentError "message" "/songs/search") ∧
    statusOf (songs_search store message) = 500 ∧
    (MissingRequireArgumentError "message" "/songs/search").message =
      "argument \"message\" is required for endpoint \"/songs/search\"" := by
  rcases h with h | h <;> subst h <;> exact ⟨rfl, rfl, rfl⟩

/-- C8 (witness): the missing-message theorem applied to an absent
`message` on a one-song store. -/
theorem songs_search_missing_message_witness :
    ((none : Option String) = none ∨ (none : Option String) = some "") ∧
    (songs_search [unratedSong] none =
      .error (MissingRequireArgumentError "message" "/songs/search") ∧
    statusOf (songs_search [unratedSong] none) = 500 ∧
    (MissingRequireArgumentError "message" "/songs/search").message =
      "argument \"message\" is required for endpoint \"/songs/search\"") :=
  ⟨Or.inl rfl, songs_search_missing_message [unratedSong] none (Or.inl rfl)⟩

/-! ## Rating aggregation: C1, C7, C2 -/

theorem foldl_rating_acc (m : List (Nat × Nat)) (a : Rat) (c : Nat) :
    m.foldl (fun (ac : Rat × Nat) kv =>
        (ac.1 + (kv.1 : Rat) * (kv.2 : Rat), ac.2 + kv.2)) (a, c) =
      (a + (m.map (fun kv => (kv.1 : Rat) * (kv.2 : Rat))).sum,
       c + (m.map Prod.snd).sum) := by
  induction m generalizing a c with
  | nil => simp
  | cons kv m ih => simp [ih, add_assoc]

/-- C1: for a GET /songs/avg/rating/<song_id> request with a well-formed
`song_id` that matches no document, `find_one` returns no document and the
handler subscripts it regardless, raising an unhandled `TypeError` — the
request crashes (a generic 500), and the claimed 404
`song_id "<id>" not found` response is never produced because the handler
has no not-found branch. -/
theorem songs_ratings_unknown_id_crash (store : Store) (sid : String)
    (oid : ObjectId)
    (hp : parseObjectId sid = some oid)
    (hf : store.find? (fun s => s.oid = oid) = none) :
    songs_ratings store sid = .crash .typeErrorNoneSubscript := by
  simp [songs_ratings, hp, hf, aggregateRatings]

/-- C1 (witness): the unknown-id crash theorem applied to a well-formed
identifier on the empty store. -/
theorem songs_ratings_unknown_id_crash_witness :
    parseObjectId "0123456789abcdef01234567" =
      some ⟨"0123456789abcdef01234567"⟩ ∧
    ([] : Store).find? (fun s => s.oid = ⟨"0123456789abcdef01234567"⟩) = none ∧
    songs_ratings [] "0123456789abcdef01234567" =
      .crash .typeErrorNoneSubscript :=
  ⟨by decide, by decide,
   songs_ratings_unknown_id_crash [] "0123456789abcdef01234567"
     ⟨"0123456789abcdef01234567"⟩ (by decide) (by decide)⟩

/-- C7 (counterexample): on a song whose rating mapping is empty, the
rating-stats computation fails at `min([])` — a `ValueError`, not the
division by zero the claim asserts: the division is never reached for this
input. -/
theorem songs_ratings_empty_histogram_not_divzero :
    songs_ratings [unratedSong] "0123456789abcdef01234567" =
      .crash .valueErrorEmptyMin ∧
    StatsOutcome.crash .valueErrorEmptyMin ≠ .crash .zeroDivisionError := by
  exact ⟨by decide, by decide⟩

/-- C7 (amended): the rating-stats operation is indeed not total on a song
with an empty rating mapping, but the failure is the `ValueError` raised by
`min` over the empty key sequence, which occurs before the division by the
total count is ever executed. -/
theorem songs_ratings_empty_histogram_fails (store : Store) (sid : String)
    (oid : ObjectId) (song : Song)
    (hp : parseObjectId sid = some oid)
    (hf : store.find? (fun s => s.oid = oid) = some song)
    (hemp : song.rating = []) :
    songs_ratings store sid = .crash .valueErrorEmptyMin := by
  simp [songs_ratings, hp, hf, aggregateRatings, hemp]

/-- C7 (witness): the empty-histogram theorem applied to a store holding
one unrated song, addressed through an uppercase spelling of its id. -/
theorem songs_ratings_empty_histogram_fails_witness :
    parseObjectId "0123456789ABCDEF01234567" =
      some ⟨"0123456789abcdef01234567"⟩ ∧
    ([unratedSong] : Store).find?
      (fun s => s.oid = ⟨"0123456789abcdef01234567"⟩) = some unratedSong ∧
    unratedSong.rating = [] ∧
    songs_ratings [unratedSong] "0123456789ABCDEF01234567" =
      .crash .valueErrorEmptyMin :=
  ⟨by decide, by decide, rfl,
   songs_ratings_empty_histogram_fails [unratedSong] "0123456789ABCDEF01234567"
     ⟨"0123456789abcdef01234567"⟩ unratedSong (by decide) (by decide) rfl⟩

/-- C2: for a song whose rating mapping is non-empty (and whose recorded
counts are all non-zero, the data-model invariant for histograms built by
the increment operation), the rating-stats response carries `min_rating`
and `max_rating` equal to the smallest and largest rating values with a
non-zero recorded count, and `avg_rating` equal to the count-weighted mean
`sum(value * count) / sum(count)` over the mapping. -/
theorem songs_ratings_stats (store : Store) (sid : String) (oid : ObjectId)
    (song : Song) (mn mx : Nat)
    (hp : parseObjectId sid = some oid)
    (hf : store.find? (fun s => s.oid = oid) = some song)
    (hne : song.rating ≠ [])
    (hpos : ∀ kv ∈ song.rating, kv.2 ≠ 0)
    (hmn : specMinRating song.rating = some mn)
    (hmx : specMaxRating song.rating = some mx) :
    songs_ratings store sid =
      .ok song.oid mn mx (specAvgRating song.rating) := by
  have hsr : songs_ratings store sid = aggregateRatings (some song) := by
    simp [songs_ratings, hp, hf]
  rw [hsr]
  have hfl : song.rating.filter (fun kv => kv.2 ≠ 0) = song.rating := by
    rw [List.filter_eq_self]
    intro kv hkv
    simpa using hpos kv hkv
  rw [specMinRating, nonzeroValues, hfl] at hmn
  rw [specMaxRating, nonzeroValues, hfl] at hmx
  have hc0 : (song.rating.map Prod.snd).sum ≠ 0 := by
    cases hr : song.rating with
    | nil => exact absurd hr hne
    | cons kv m =>
      have : kv.2 ≠ 0 := hpos kv (by rw [hr]; exact List.mem_cons_self kv m)
      simp [hr]
      omega
  cases hkeys : song.rating.map Prod.fst with
  | nil => exact absurd (List.map_eq_nil_iff.mp hkeys) hne
  | cons k ks =>
    rw [hkeys] at hmn hmx
    simp only [Option.some.injEq] at hmn hmx
    simp only [aggregateRatings, hkeys, foldl_rating_acc, zero_add]
    rw [if_neg hc0]
    rw [hmn, hmx]
    rfl

/-- C2 (witness): the rating-stats theorem applied to a song rated once at
value 4 — min, max and average are all 4. -/
theorem songs_ratings_stats_witness :
    parseObjectId "aaaaaaaaaaaaaaaaaaaaaaaa" =
      some ⟨"aaaaaaaaaaaaaaaaaaaaaaaa"⟩ ∧
    ([ratedSong] : Store).find?
      (fun s => s.oid = ⟨"aaaaaaaaaaaaaaaaaaaaaaaa"⟩) = some ratedSong ∧
    ratedSong.rating ≠ [] ∧ (∀ kv ∈ ratedSong.rating, kv.2 ≠ 0) ∧
    specMinRating ratedSong.rating = some 4 ∧
    specMaxRating ratedSong.rating = some 4 ∧
    songs_ratings [ratedSong] "aaaaaaaaaaaaaaaaaaaaaaaa" =
      .ok ratedSong.oid 4 4 (specAvgRating ratedSong.rating) :=
  ⟨by decide, by decide, by decide, by decide, by decide, by decide,
   songs_ratings_stats [ratedSong] "aaaaaaaaaaaaaaaaaaaaaaaa"
     ⟨"aaaaaaaaaaaaaaaaaaaaaaaa"⟩ ratedSong 4 4
     (by decide) (by decide) (by decide) (by decide) (by decide) (by decide)⟩

/-! ## POST /songs/rating: C4 and C10 -/

theorem ratingCount_incRating_self (m : List (Nat × Nat)) (r : Nat) :
    ratingCount (incRating m r) r = ratingCount m r + 1 := by
  induction m with
  | nil => simp [incRating, ratingCount]
  | cons kv m ih =>
    obtain ⟨k, v⟩ := kv
    by_cases h : k = r
    · subst h
      simp [incRating, ratingCount]
    · simp [incRating, ratingCount, h, ih]

theorem ratingCount_incRating_other (m : List (Nat × Nat)) (r w : Nat)
    (hw : w ≠ r) :
    ratingCount (incRating m r) w = ratingCount m w := by
  induction m with
  | nil => simp [incRating, ratingCount, Ne.symm hw]
  | cons kv m ih =>
    obtain ⟨k, v⟩ := kv
    by_cases h : k = r
    · subst h
      simp [incRating, ratingCount, hw, Ne.symm hw]
    · by_cases hkw : k = w
      · subst hkw
        simp [incRating, ratingCount, h]
      · simp [incRating, ratingCount, h, hkw, ih]

theorem updateOneIncRating_not_found (docs : Store) (oid : ObjectId) (r : Nat)
    (h : docs.find? (fun s => s.oid = oid) = none) :
    updateOneIncRating docs oid r = (docs, 0) := by
  induction docs with
  | nil => rfl
  | cons s docs ih =>
    by_cases hso : s.oid = oid
    · simp [List.find?, hso] at h
    · simp [List.find?, hso] at h
      have hnone : docs.find? (fun s => s.oid = oid) = none :=
        List.find?_eq_none.mpr (fun x hx => by simpa using h x hx)
      simp [updateOneIncRating, hso, ih hnone]

theorem updateOneIncRating_found (docs : Store) (oid : ObjectId) (r : Nat)
    (song : Song)
    (h : docs.find? (fun s => s.oid = oid) = some song) :
    ∃ docs', updateOneIncRating docs oid r = (docs', 1) ∧
      docs'.find? (fun s => s.oid = oid) =
        some { song with rating := incRating song.rating r } := by
  induction docs with
  | nil => simp [List.find?] at h
  | cons s docs ih =>
    by_cases hso : s.oid = oid
    · have hs : s = song := by
        simpa [List.find?, hso] using h
      subst hs
      refine ⟨{ s with rating := incRating s.rating r } :: docs, ?_, ?_⟩
      · simp [updateOneIncRating, hso]
      · simp [List.find?, hso]
    · simp [List.find?, hso] at h
      obtain ⟨docs', h1, h2⟩ := ih h
      refine ⟨s :: docs', ?_, ?_⟩
      · simp [updateOneIncRating, hso, h1]
      · simp [List.find?, hso, h2]

/-- C4 (counterexample): POST /songs/rating with a present but empty
`song_id` — a value that is not a valid 24-hex-character identifier, hence
"present but malformed" in the claim's case split — yields
`MissingRequireArgumentError("song_id", "/songs/rating")`, not the
`InvalidArgumentError("", "song_id")` the claim's characterization
assigns to it (the handler's truthiness test treats the empty string as
missing). -/
theorem songs_rating_empty_song_id_counterexample :
    songs_rating [ratedSong] (some "") (some "4") =
      (.err (MissingRequireArgumentError "song_id" "/songs/rating"),
       [ratedSong]) ∧
    MissingRequireArgumentError "song_id" "/songs/rating" ≠
      InvalidArgumentError "" "song_id" := by
  exact ⟨by decide, by decide⟩

/-- C4 (amended): POST /songs/rating behaves as the claim characterizes,
except that an empty-string `song_id` is treated as missing: a missing
*or empty* `song_id` yields `MissingRequireArgument("song_id", path)`
(status 500); a present non-empty malformed `song_id` yields
`InvalidArgument(song_id, "song_id")` (status 500); a missing or
out-of-set `rating` yields `InvalidArgument(rating, "rating")` (status
500, the absent value printing as `None`); a well-formed `song_id`
matching no document yields `ObjectNotFound` (status 404) with the store
unchanged; otherwise the counter at `rating[<ratingValue>]` on the
matching document is incremented by exactly one (all other counters
unchanged) and the response is 200 `{"status": "OK"}`. -/
theorem songs_rating_characterization (store : Store) (sid r : Option String) :
    ((sid = none ∨ sid = some "") →
      songs_rating store sid r =
        (.err (MissingRequireArgumentError "song_id" "/songs/rating"), store) ∧
      (MissingRequireArgumentError "song_id" "/songs/rating").status_code = 500) ∧
    (∀ s, sid = some s → s ≠ "" → parseObjectId s = none →
      songs_rating store sid r =
        (.err (InvalidArgumentError s "song_id"), store) ∧
      (InvalidArgumentError s "song_id").status_code = 500) ∧
    (∀ s oid, sid = some s → parseObjectId s = some oid →
      (r = none ∨ ∀ t, r = some t → t ∉ validRatings) →
      songs_rating store sid r =
        (.err (InvalidArgumentError (pyShow r) "rating"), store) ∧
      (InvalidArgumentError (pyShow r) "rating").status_code = 500) ∧
    (∀ s oid t, sid = some s → parseObjectId s = some oid → r = some t →
      t ∈ validRatings → store.find? (fun d => d.oid = oid) = none →
      songs_rating store sid r =
        (.err (ObjectNotFoundError oid.hex), store) ∧
      (ObjectNotFoundError oid.hex).status_code = 404) ∧
    (∀ s oid t song, sid = some s → parseObjectId s = some oid → r = some t →
      t ∈ validRatings → store.find? (fun d => d.oid = oid) = some song →
      ∃ store', songs_rating store sid r = (.ok, store') ∧
        statusOfRating (songs_rating store sid r).1 = 200 ∧
        store'.find? (fun d => d.oid = oid) =
          some { song with rating := incRating song.rating (ratingValue t) } ∧
        ratingCount (incRating song.rating (ratingValue t)) (ratingValue t) =
          ratingCount song.rating (ratingValue t) + 1 ∧
        (∀ w, w ≠ ratingValue t →
          ratingCount (incRating song.rating (ratingValue t)) w =
            ratingCount song.rating w)) := by
  have hvalid_ne : ∀ t : String, t ∈ validRatings → t ≠ "" := by
    intro t htv
    simp [validRatings] at htv
    rcases htv with rfl | rfl | rfl | rfl | rfl <;> decide
  have hparse_ne : ∀ (s : String) (oid : ObjectId),
      parseObjectId s = some oid → s ≠ "" := by
    intro s oid hp hs
    subst hs
    simp [parseObjectId] at hp
  refine ⟨?_, ?_, ?_, ?_, ?_⟩
  · rintro (rfl | rfl) <;> exact ⟨rfl, rfl⟩
  · rintro s rfl hs hp
    refine ⟨?_, rfl⟩
    simp [songs_rating, pyTruthy, pyShow, hs, hp]
  · rintro s oid rfl hp hr
    have hs := hparse_ne s oid hp
    refine ⟨?_, rfl⟩
    rcases hr with rfl | hbad
    · simp [songs_rating, pyTruthy, pyShow, hs, hp]
    · cases r with
      | none => simp [songs_rating, pyTruthy, pyShow, hs, hp]
      | some t =>
        have ht : t ∉ validRatings := hbad t rfl
        simp [songs_rating, pyTruthy, pyShow, hs, hp, ht]
  · rintro s oid t rfl hp rfl htv hfn
    have hs := hparse_ne s oid hp
    have hup := updateOneIncRating_not_found store oid (ratingValue t) hfn
    refine ⟨?_, rfl⟩
    simp [songs_rating, pyTruthy, hs, pyShow, hp, hvalid_ne t htv, htv, hup]
  · rintro s oid t song rfl hp rfl htv hfs
    have hs := hparse_ne s oid hp
    obtain ⟨docs', h1, h2⟩ :=
      updateOneIncRating_found store oid (ratingValue t) song hfs
    have hres : songs_rating store (some s) (some t) = (.ok, docs') := by
      simp [songs_rating, pyTruthy, hs, pyShow, hp, hvalid_ne t htv, htv, h1]
    refine ⟨docs', hres, ?_, h2, ratingCount_incRating_self _ _, ?_⟩
    · rw [hres]
      rfl
    · intro w hw
      exact ratingCount_incRating_other _ _ _ hw

/-- C4 (witness): the success branch of the characterization applied to
the one-song store, rating value "4". -/
theorem songs_rating_characterization_witness :
    parseObjectId "aaaaaaaaaaaaaaaaaaaaaaaa" =
      some ⟨"aaaaaaaaaaaaaaaaaaaaaaaa"⟩ ∧
    ("4" : String) ∈ validRatings ∧
    ([ratedSong] : Store).find?
      (fun d => d.oid = ⟨"aaaaaaaaaaaaaaaaaaaaaaaa"⟩) = some ratedSong ∧
    (∃ store', songs_rating [ratedSong] (some "aaaaaaaaaaaaaaaaaaaaaaaa")
        (some "4") = (.ok, store') ∧
      statusOfRating (songs_rating [ratedSong]
        (some "aaaaaaaaaaaaaaaaaaaaaaaa") (some "4")).1 = 200 ∧
      store'.find? (fun d => d.oid = ⟨"aaaaaaaaaaaaaaaaaaaaaaaa"⟩) =
        some { ratedSong with
                 rating := incRating ratedSong.rating (ratingValue "4") } ∧
      ratingCount (incRating ratedSong.rating (ratingValue "4"))
          (ratingValue "4") =
        ratingCount ratedSong.rating (ratingValue "4") + 1 ∧
      (∀ w, w ≠ ratingValue "4" →
        ratingCount (incRating ratedSong.rating (ratingValue "4")) w =
          ratingCount ratedSong.rating w)) :=
  ⟨by decide, by decide, by decide,
   (songs_rating_characterization [ratedSong]
       (some "aaaaaaaaaaaaaaaaaaaaaaaa") (some "4")).2.2.2.2
     "aaaaaaaaaaaaaaaaaaaaaaaa" ⟨"aaaaaaaaaaaaaaaaaaaaaaaa"⟩ "4" ratedSong
     rfl (by decide) rfl (by decide) (by decide)⟩

/-- C10: whenever POST /songs/rating produces an error response with
status 500 (any of the validation failures), the document store is left
unchanged — the increment update is only issued once every validation has
passed. -/
theorem songs_rating_error_preserves_store (store : Store)
    (sid r : Option String) (e : ApiError)
    (h : (songs_rating store sid r).1 = .err e)
    (h5 : e.status_code = 500) :
    (songs_rating store sid r).2 = store := by
  by_cases ht : pyTruthy sid
  · cases hp : parseObjectId (pyShow sid) with
    | none => simp [songs_rating, ht, hp]
    | some oid =>
      by_cases hr : pyTruthy r = true ∧ pyShow r ∈ validRatings
      · rcases hm : updateOneIncRating store oid (ratingValue (pyShow r)) with
          ⟨docs', matched⟩
        by_cases hm0 : matched = 0
        · subst hm0
          simp [songs_rating, ht, hp, hr, hm] at h
          rw [← h] at h5
          simp [ObjectNotFoundError] at h5
        · simp [songs_rating, ht, hp, hr, hm, hm0] at h
      · simp [songs_rating, ht, hp, hr]
  · simp [songs_rating, ht]

/-- C10 (witness): the store-preservation theorem applied to a malformed
`song_id` on a one-song store. -/
theorem songs_rating_error_preserves_store_witness :
    (songs_rating [ratedSong] (some "xyz") none).1 =
      .err (InvalidArgumentError "xyz" "song_id") ∧
    (InvalidArgumentError "xyz" "song_id").status_code = 500 ∧
    (songs_rating [ratedSong] (some "xyz") none).2 = [ratedSong] :=
  ⟨by decide, rfl,
   songs_rating_error_preserves_store [ratedSong] (some "xyz") none
     (InvalidArgumentError "xyz" "song_id") (by decide) rfl⟩

end SongApi
